import Mathlib

/-!
Verification development for the WHO SMART Guidelines exploration script
(`smart_explore.py`).  The Python source is shallowly embedded: JSON values
become an inductive type, HTTP calls become explicit transport behaviours
(functions from URL to outcome), Python exceptions become an explicit
`Except` layer, and every function of the script that the claims touch is
transliterated into a computable Lean definition.
-/

namespace SmartExplore

/-- Embeds a Python/JSON value.  Objects keep their key order as an
association list (Python dicts preserve insertion order and have unique
keys). -/
inductive Json where
  | null
  | bool (b : Bool)
  | num (n : Int)
  | str (s : String)
  | arr (xs : List Json)
  | obj (kvs : List (String × Json))

/-- A Python dict with string keys, as produced by `response.json()` for a
JSON object. -/
abbrev PyDict := List (String × Json)

/-- The Python exceptions the embedded code can raise.  In the `requests`
library (2.27 and later) `JSONDecodeError` from `response.json()` is a
subclass of `requests.RequestException`, so both are caught by
`except requests.RequestException`. -/
inductive PyExn where
  | requestException
  | jsonDecodeError
  | attributeError
  | typeError

/-- Which exceptions an `except requests.RequestException` clause catches. -/
def PyExn.isRequestException : PyExn → Bool
  | .requestException => true
  | .jsonDecodeError => true
  | .attributeError => false
  | .typeError => false

/-- Outcome of calling `response.json()` on a received response: either a
parsed value or a raised `JSONDecodeError`. -/
inductive JsonBody where
  | ok (j : Json)
  | invalid

/-- Outcome of one `requests.get` / `requests.post` call, as supplied by a
transport behaviour: the call either raises a transport-level
`RequestException` or yields a response with a status code and a body. -/
inductive HttpOutcome where
  | raise
  | resp (status : Nat) (body : JsonBody)

/-- A transport behaviour: what the network does for each requested URL. -/
abbrev Transport := String → HttpOutcome

/-- Python `dict.get(key, default)`. -/
def dictGet (kvs : PyDict) (k : String) (dflt : Json) : Json :=
  match kvs.lookup k with
  | some v => v
  | none => dflt

/-- Python `value.get(key, default)` on an arbitrary JSON value: works on
dicts, raises `AttributeError` otherwise. -/
def jsonGet (j : Json) (k : String) (dflt : Json) : Except PyExn Json :=
  match j with
  | .obj kvs => .ok (dictGet kvs k dflt)
  | _ => .error .attributeError

/-- Python `for x in value` over a JSON value, restricted to the list case;
iterating a value that is not a list is modelled as a `TypeError` (the
script only ever iterates values defaulted to `[]`). -/
def jsonIter (j : Json) : Except PyExn (List Json) :=
  match j with
  | .arr xs => .ok xs
  | _ => .error .typeError

/-- The five candidate implementation-guide JSON URLs of
`fetch_smart_guideline`, in their declared order (source lines 55-61). -/
def url_patterns (guideline_name : String) : List String :=
  ["http://build.fhir.org/ig/WorldHealthOrganization/smart-" ++ guideline_name ++
     "/ImplementationGuide-smart-" ++ guideline_name ++ ".json",
   "http://build.fhir.org/ig/WorldHealthOrganization/smart-" ++ guideline_name ++
     "/ImplementationGuide.json",
   "https://worldhealthorganization.github.io/smart-" ++ guideline_name ++
     "/ImplementationGuide-smart-" ++ guideline_name ++ ".json",
   "https://worldhealthorganization.github.io/smart-" ++ guideline_name ++
     "/ImplementationGuide.json",
   "http://smart.who.int/" ++ guideline_name ++ "/ImplementationGuide/smart.who.int." ++
     guideline_name ++ ".json"]

/-- The candidate loop of `fetch_smart_guideline` (source lines 63-73):
for each URL, `try: response = requests.get(url); if status == 200: return
response.json(); except requests.RequestException: continue`.  A raised
exception is caught exactly when it is a `RequestException`; anything
uncaught would propagate as `.error`. -/
def fetchLoop (t : Transport) : List String → Except PyExn (Option Json)
  | [] => .ok none
  | url :: rest =>
    match t url with
    | .raise =>
        if PyExn.requestException.isRequestException then fetchLoop t rest
        else .error .requestException
    | .resp status body =>
        if status = 200 then
          match body with
          | .ok j => .ok (some j)
          | .invalid =>
              if PyExn.jsonDecodeError.isRequestException then fetchLoop t rest
              else .error .jsonDecodeError
        else fetchLoop t rest

/-- `SMARTGuidelinesClient.fetch_smart_guideline` (source lines 44-73). -/
def fetch_smart_guideline (guideline_name : String) (t : Transport) :
    Except PyExn (Option Json) :=
  fetchLoop t (url_patterns guideline_name)

/-- One dependency entry produced by `process_dak_content`. -/
structure DakDependency where
  uri : Json
  version : Json

/-- One contained-resource entry produced by `process_dak_content`. -/
structure DakResource where
  type : Json
  id : Json
  title : Json

/-- The record built by `process_dak_content`. -/
structure DakInfo where
  title : Json
  version : Json
  description : Json
  status : Json
  date : Json
  publisher : Json
  resources : List DakResource
  dependencies : List DakDependency

/-- `SMARTGuidelinesClient.process_dak_content` (source lines 75-115).  The
argument is the declared `Optional[Dict]`: `None`, or a dict as an ordered
association list; `if not guideline_data` is Python falsiness (None or the
empty dict). -/
def process_dak_content (guideline_data : Option PyDict) :
    Except PyExn (Option DakInfo) :=
  match guideline_data with
  | none => .ok none
  | some kvs =>
    if kvs.isEmpty then .ok none
    else do
      let deps ← (← jsonIter (dictGet kvs "dependsOn" (.arr []))).mapM fun dep => do
        let uri ← jsonGet dep "uri" (.str "")
        let version ← jsonGet dep "version" (.str "")
        pure { uri := uri, version := version : DakDependency }
      let ress ← (← jsonIter (dictGet kvs "contained" (.arr []))).mapM fun r => do
        let rt ← jsonGet r "resourceType" (.str "Unknown")
        let rid ← jsonGet r "id" (.str "")
        let nameDefault ← jsonGet r "name" (.str "")
        let rtitle ← jsonGet r "title" nameDefault
        pure { type := rt, id := rid, title := rtitle : DakResource }
      pure (some
        { title := dictGet kvs "title" (.str "Unknown Title")
          version := dictGet kvs "version" (.str "Unknown Version")
          description := dictGet kvs "description" (.str "")
          status := dictGet kvs "status" (.str "unknown")
          date := dictGet kvs "date" (.str "")
          publisher := dictGet kvs "publisher" (.str "")
          resources := ress
          dependencies := deps })

/-- The token-exchange step of `SMARTGuidelinesClient.authenticate_oauth2`
(source lines 210-219): the POST outcome is given by the transport; on a
200 response the code returns `response.json().get('access_token')`; a
non-200 response returns `None`; the `except requests.RequestException`
clause returns `None` for transport and JSON-decode failures; `.get` on a
non-dict 200 body raises an uncaught `AttributeError`. -/
def authenticate_oauth2 (t : HttpOutcome) : Except PyExn (Option Json) :=
  match t with
  | .raise =>
      if PyExn.requestException.isRequestException then .ok none
      else .error .requestException
  | .resp status body =>
      if status = 200 then
        match body with
        | .invalid =>
            if PyExn.jsonDecodeError.isRequestException then .ok none
            else .error .jsonDecodeError
        | .ok (.obj kvs) => .ok (kvs.lookup "access_token")
        | .ok _ => .error .attributeError
      else .ok none

/-- The fallback dict of `get_guideline_summary` (source line 250). -/
def fallbackSummary (guideline_name : String) : PyDict :=
  [("name", .str guideline_name),
   ("description", .str "Repository information not available")]

/-- `SMARTGuidelinesClient.get_guideline_summary` (source lines 222-250):
one GET to the GitHub API; on a 200 response with a JSON dict body the
mapped field set is returned; a non-200 response falls through the `try`
block, and a caught `RequestException` (transport or JSON decode) passes,
both reaching the fallback return. -/
def get_guideline_summary (guideline_name : String) (t : HttpOutcome) :
    Except PyExn PyDict :=
  match t with
  | .raise =>
      if PyExn.requestException.isRequestException then .ok (fallbackSummary guideline_name)
      else .error .requestException
  | .resp status body =>
      if status = 200 then
        match body with
        | .invalid =>
            if PyExn.jsonDecodeError.isRequestException then .ok (fallbackSummary guideline_name)
            else .error .jsonDecodeError
        | .ok (.obj kvs) =>
            .ok [("name", dictGet kvs "name" (.str "")),
                 ("description", dictGet kvs "description" (.str "No description available")),
                 ("updated_at", dictGet kvs "updated_at" (.str "")),
                 ("html_url", dictGet kvs "html_url" (.str "")),
                 ("topics", dictGet kvs "topics" (.arr [])),
                 ("language", dictGet kvs "language" (.str "")),
                 ("size", dictGet kvs "size" (.num 0))]
        | .ok _ => .error .attributeError
      else .ok (fallbackSummary guideline_name)

/-- Outcome of one `requests.head` call. -/
inductive HeadOutcome where
  | raise
  | resp (status : Nat)

/-- A transport behaviour for HEAD probes. -/
abbrev HeadTransport := String → HeadOutcome

/-- The status recorded per endpoint by `check_guideline_availability`:
either the integer status code or the string `'error'`. -/
inductive EndpointStatus where
  | code (n : Nat)
  | error
deriving DecidableEq

/-- One entry of the availability dict. -/
structure EndpointInfo where
  url : String
  status : EndpointStatus
  accessible : Bool
deriving DecidableEq

/-- The three fixed endpoints of `check_guideline_availability`
(source lines 262-266), in declared dict order. -/
def availabilityEndpoints (guideline_name : String) : List (String × String) :=
  [("build_site",
    "http://build.fhir.org/ig/WorldHealthOrganization/smart-" ++ guideline_name ++ "/"),
   ("github_pages",
    "https://worldhealthorganization.github.io/smart-" ++ guideline_name ++ "/"),
   ("github_repo",
    "https://github.com/WorldHealthOrganization/smart-" ++ guideline_name)]

/-- The per-endpoint loop body of `check_guideline_availability` (source
lines 269-282): `try: response = requests.head(url); record status and
accessible; except requests.RequestException: record 'error', False`. -/
def probeEndpoint (url : String) (t : HeadTransport) : EndpointInfo :=
  match t url with
  | .resp s => { url := url, status := .code s, accessible := s == 200 }
  | .raise => { url := url, status := .error, accessible := false }

/-- `SMARTGuidelinesClient.check_guideline_availability` (source lines
252-284), returning the availability dict as an ordered association
list. -/
def check_guideline_availability (guideline_name : String) (t : HeadTransport) :
    List (String × EndpointInfo) :=
  (availabilityEndpoints guideline_name).map fun p => (p.1, probeEndpoint p.2 t)

/-!
A small backtracking regular-expression engine, sufficient for the fixed
patterns `smart_explore.py` feeds to `re.search` / `re.findall`.  A parser
maps an input suffix to the list of possible results, in Python's
backtracking priority order (greedy repetition tries longer consumptions
first, alternation tries the left branch first); the head of the list is
the match Python's engine produces at that position.
-/

/-- A regex fragment with backtracking: all ways to match a prefix of the
input, each with its result and the remaining suffix, in priority order. -/
abbrev RxP (α : Type) := List Char → List (α × List Char)

/-- Match the empty string, producing a fixed result. -/
def rxPure {α : Type} (a : α) : RxP α := fun s => [(a, s)]

/-- Concatenation of regex fragments, threading the result. -/
def rxBind {α β : Type} (p : RxP α) (f : α → RxP β) : RxP β := fun s =>
  (p s).flatMap fun ar => f ar.1 ar.2

/-- Map over a fragment's result. -/
def rxMap {α β : Type} (f : α → β) (p : RxP α) : RxP β := fun s =>
  (p s).map fun ar => (f ar.1, ar.2)

/-- Alternation: left branch has priority, as in Python's `|`. -/
def rxOr {α : Type} (p q : RxP α) : RxP α := fun s => p s ++ q s

/-- A single character from a character class. -/
def rxCh (pred : Char → Bool) : RxP Char := fun s =>
  match s with
  | [] => []
  | c :: rest => if pred c then [(c, rest)] else []

/-- A case-sensitive literal. -/
def rxLit (cs : List Char) : RxP Unit := fun s =>
  if cs.isPrefixOf s then [((), s.drop cs.length)] else []

/-- Case-insensitive character comparison, as under `re.IGNORECASE`. -/
def charEqIC (a b : Char) : Bool := a.toLower == b.toLower

/-- Case-insensitive prefix test. -/
def isPrefixIC : List Char → List Char → Bool
  | [], _ => true
  | _ :: _, [] => false
  | c :: cs, x :: xs => charEqIC c x && isPrefixIC cs xs

/-- A case-insensitive literal. -/
def rxLitIC (cs : List Char) : RxP Unit := fun s =>
  if isPrefixIC cs s then [((), s.drop cs.length)] else []

/-- A case-sensitive literal capturing the matched text (which equals the
pattern text). -/
def rxLitCap (cs : List Char) : RxP (List Char) := fun s =>
  if cs.isPrefixOf s then [(cs, s.drop cs.length)] else []

/-- A case-insensitive literal capturing the actually matched text. -/
def rxLitICCap (cs : List Char) : RxP (List Char) := fun s =>
  if isPrefixIC cs s then [(s.take cs.length, s.drop cs.length)] else []

/-- Greedy Kleene star over a character class: longest consumption
first. -/
def rxStar (pred : Char → Bool) : RxP (List Char) := fun s =>
  let n := (s.takeWhile pred).length
  (List.range (n + 1)).map fun i => (s.take (n - i), s.drop (n - i))

/-- Greedy one-or-more repetition over a character class. -/
def rxPlus (pred : Char → Bool) : RxP (List Char) := fun s =>
  let n := (s.takeWhile pred).length
  (List.range n).map fun i => (s.take (n - i), s.drop (n - i))

/-- Greedy option: the present branch has priority, as for Python `?`. -/
def rxOpt {α : Type} (p : RxP α) : RxP (Option α) :=
  rxOr (rxMap some p) (rxPure none)

/-- `re.search`: the match at the leftmost position that has one, taking
the engine's first alternative there. -/
def searchRx {α : Type} (p : RxP α) : List Char → Option α
  | [] => ((p []).head?).map Prod.fst
  | c :: rest =>
    match (p (c :: rest)).head? with
    | some ar => some ar.1
    | none => searchRx p rest

/-- The scan of `re.findall` with an explicit fuel argument, spending one
unit per step; every step shortens the input, so any fuel exceeding the
input length makes the zero-fuel base case unreachable.  The fuel keeps
the recursion structural, hence reducible inside the kernel. -/
def findAllRxGo {α : Type} (p : RxP α) : Nat → List Char → List α
  | 0, _ => []
  | _ + 1, [] =>
    (match (p []).head? with
     | some ar => [ar.1]
     | none => [])
  | fuel + 1, c :: rest =>
    match (p (c :: rest)).head? with
    | some ar =>
      if ar.2.length < (c :: rest).length then ar.1 :: findAllRxGo p fuel ar.2
      else ar.1 :: findAllRxGo p fuel rest
    | none => findAllRxGo p fuel rest

/-- `re.findall`: non-overlapping leftmost matches, resuming after each
match's end (and advancing one position after a zero-width match, as
Python does). -/
def findAllRx {α : Type} (p : RxP α) (s : List Char) : List α :=
  findAllRxGo p (s.length + 1) s

/-- Python `\s` over ASCII text. -/
def wsChar (c : Char) : Bool :=
  c == ' ' || c == '\t' || c == '\n' || c == '\r' || c == '\x0b' || c == '\x0c'

/-- Python `\w` over ASCII text. -/
def wordChar (c : Char) : Bool := c.isAlphanum || c == '_'

/-- The character class `[a-zA-Z0-9._-]` of the FHIR id patterns. -/
def idChar (c : Char) : Bool := c.isAlphanum || c == '.' || c == '_' || c == '-'

/-- The character class for a quote, `["\x27]`. -/
def quoteChar (c : Char) : Bool := c == '"' || c == '\''

/-- Python `str.strip()`. -/
def pyStrip (s : List Char) : List Char :=
  ((s.dropWhile wsChar).reverse.dropWhile wsChar).reverse

/-- The scan of `re.sub(r'\s+', ' ', s)`: `inRun` records whether the
current position is inside a whitespace run whose single replacement
space was already emitted. -/
def collapseWsGo (inRun : Bool) : List Char → List Char
  | [] => []
  | c :: rest =>
    if wsChar c then
      if inRun then collapseWsGo true rest
      else ' ' :: collapseWsGo true rest
    else c :: collapseWsGo false rest

/-- Python `re.sub(r'\s+', ' ', s)`: collapse each maximal whitespace run
to one space. -/
def collapseWs (s : List Char) : List Char := collapseWsGo false s

/-- Python `str.lower()` over ASCII text. -/
def lowerList (s : List Char) : List Char := s.map Char.toLower

/-- Python `needle in haystack` on strings, as lists of characters. -/
def containsSub (nd : List Char) : List Char → Bool
  | [] => nd.isEmpty
  | c :: rest => nd.isPrefixOf (c :: rest) || containsSub nd rest

/-- The version-number group `([0-9]+\.[0-9]+(?:\.[0-9]+)?)`. -/
def rxNumber : RxP (List Char) :=
  rxBind (rxPlus Char.isDigit) fun a =>
  rxBind (rxCh (· == '.')) fun _ =>
  rxBind (rxPlus Char.isDigit) fun b =>
  rxBind (rxOpt (rxBind (rxCh (· == '.')) fun _ => rxPlus Char.isDigit)) fun copt =>
  rxPure (a ++ '.' :: (b ++ (match copt with | some cs => '.' :: cs | none => [])))

/-- Version pattern 1 (source line 345), under `re.IGNORECASE`. -/
def rxVersion1 : RxP (List Char) :=
  rxBind (rxLitIC "Version".toList) fun _ =>
  rxBind (rxPlus fun c => c == ':' || wsChar c) fun _ =>
  rxNumber

/-- Version pattern 2 (source line 346), under `re.IGNORECASE`. -/
def rxVersion2 : RxP (List Char) :=
  rxBind (rxLitIC "version".toList) fun _ =>
  rxBind (rxOpt (rxCh quoteChar)) fun _ =>
  rxBind (rxStar wsChar) fun _ =>
  rxBind (rxCh fun c => c == ':' || c == '=') fun _ =>
  rxBind (rxStar wsChar) fun _ =>
  rxBind (rxOpt (rxCh quoteChar)) fun _ =>
  rxNumber

/-- Version pattern 3 (source line 347), under `re.IGNORECASE`. -/
def rxVersion3 : RxP (List Char) :=
  rxBind (rxCh fun c => c == 'v' || c == 'V') fun _ => rxNumber

/-- The ordered version-pattern list of
`parse_implementation_guide_html` (source lines 344-348). -/
def version_patterns : List (RxP (List Char)) := [rxVersion1, rxVersion2, rxVersion3]

/-- The `for pattern in ...: m = re.search(...); if m: take group 1 and
break` loop shape used for the version patterns (source lines 350-354). -/
def firstPatternMatch {α : Type} : List (RxP α) → List Char → Option α
  | [], _ => none
  | p :: ps, s =>
    match searchRx p s with
    | some v => some v
    | none => firstPatternMatch ps s

/-- The title pattern (source line 334), under `re.IGNORECASE`. -/
def rxTitle : RxP (List Char) :=
  rxBind (rxLitIC "<title".toList) fun _ =>
  rxBind (rxStar fun c => !(c == '>')) fun _ =>
  rxBind (rxCh (· == '>')) fun _ =>
  rxBind (rxPlus fun c => !(c == '<')) fun ttl =>
  rxBind (rxLitIC "</title>".toList) fun _ =>
  rxPure ttl

/-- The meta-description pattern (source line 339), under
`re.IGNORECASE`. -/
def rxMetaDesc : RxP (List Char) :=
  rxBind (rxLitIC "<meta".toList) fun _ =>
  rxBind (rxStar fun c => !(c == '>')) fun _ =>
  rxBind (rxLitIC "name=".toList) fun _ =>
  rxBind (rxCh quoteChar) fun _ =>
  rxBind (rxLitIC "description".toList) fun _ =>
  rxBind (rxCh quoteChar) fun _ =>
  rxBind (rxStar fun c => !(c == '>')) fun _ =>
  rxBind (rxLitIC "content=".toList) fun _ =>
  rxBind (rxCh quoteChar) fun _ =>
  rxBind (rxPlus fun c => !(quoteChar c)) fun d =>
  rxBind (rxCh quoteChar) fun _ =>
  rxPure d

/-- The heading pattern (source line 358), under `re.IGNORECASE`; as in
the source, the closing level digit need not equal the opening one. -/
def rxHeading : RxP (List Char) :=
  rxBind (rxLitIC "<h".toList) fun _ =>
  rxBind (rxCh fun c => '1' ≤ c && c ≤ '6') fun _ =>
  rxBind (rxStar fun c => !(c == '>')) fun _ =>
  rxBind (rxCh (· == '>')) fun _ =>
  rxBind (rxPlus fun c => !(c == '<')) fun h =>
  rxBind (rxLitIC "</h".toList) fun _ =>
  rxBind (rxCh fun c => '1' ≤ c && c ≤ '6') fun _ =>
  rxBind (rxCh (· == '>')) fun _ =>
  rxPure h

/-- The header-div pattern (source line 359), under `re.IGNORECASE`. -/
def rxDivHeader : RxP (List Char) :=
  rxBind (rxLitIC "<div".toList) fun _ =>
  rxBind (rxStar fun c => !(c == '>')) fun _ =>
  rxBind (rxLitIC "class".toList) fun _ =>
  rxBind (rxStar fun c => !(c == '>')) fun _ =>
  rxBind (rxLitIC "header".toList) fun _ =>
  rxBind (rxStar fun c => !(c == '>')) fun _ =>
  rxBind (rxCh (· == '>')) fun _ =>
  rxBind (rxPlus fun c => !(c == '<')) fun h =>
  rxBind (rxLitIC "</div>".toList) fun _ =>
  rxPure h

/-- The five capitalised FHIR resource-type names of the slash pattern
(source line 374). -/
def fhirTypeNames : List String :=
  ["StructureDefinition", "ValueSet", "CodeSystem", "ConceptMap", "ImplementationGuide"]

/-- The case-sensitive alternation of the five FHIR type names. -/
def rxFhirAlt : RxP (List Char) :=
  rxOr (rxLitCap "StructureDefinition".toList)
    (rxOr (rxLitCap "ValueSet".toList)
      (rxOr (rxLitCap "CodeSystem".toList)
        (rxOr (rxLitCap "ConceptMap".toList)
          (rxLitCap "ImplementationGuide".toList))))

/-- FHIR pattern 1, `Type/id` (source line 374); `re.findall` is called
without `re.IGNORECASE` here, so matching is case-sensitive. -/
def rxFhirSlash : RxP (List Char × List Char) :=
  rxBind rxFhirAlt fun t =>
  rxBind (rxCh (· == '/')) fun _ =>
  rxBind (rxPlus idChar) fun i =>
  rxPure (t, i)

/-- FHIR pattern 2, the textual `FHIR TypeName: id` form (source line
375), also case-sensitive; Python's `findall` yields the empty string for
the unmatched optional id group. -/
def rxFhirText : RxP (List Char × List Char) :=
  rxBind (rxLit "FHIR".toList) fun _ =>
  rxBind (rxPlus wsChar) fun _ =>
  rxBind (rxCh fun c => 'A' ≤ c && c ≤ 'Z') fun u =>
  rxBind (rxPlus Char.isAlpha) fun restOfName =>
  rxBind (rxStar wsChar) fun _ =>
  rxBind (rxOpt (rxCh (· == ':'))) fun _ =>
  rxBind (rxStar wsChar) fun _ =>
  rxBind (rxOpt (rxPlus idChar)) fun oid =>
  rxPure (u :: restOfName, oid.getD [])

/-- The anchor pattern for useful links (source line 390), under
`re.IGNORECASE`. -/
def rxAnchor : RxP (List Char × List Char) :=
  rxBind (rxLitIC "<a".toList) fun _ =>
  rxBind (rxStar fun c => !(c == '>')) fun _ =>
  rxBind (rxLitIC "href=".toList) fun _ =>
  rxBind (rxCh quoteChar) fun _ =>
  rxBind (rxPlus fun c => !(quoteChar c)) fun href =>
  rxBind (rxCh quoteChar) fun _ =>
  rxBind (rxStar fun c => !(c == '>')) fun _ =>
  rxBind (rxCh (· == '>')) fun _ =>
  rxBind (rxPlus fun c => !(c == '<')) fun txt =>
  rxBind (rxLitIC "</a>".toList) fun _ =>
  rxPure (href, txt)

/-- One extracted link entry. -/
structure IGLink where
  url : String
  text : String
deriving DecidableEq

/-- The record built by `parse_implementation_guide_html`. -/
structure IGInfo where
  source_url : String
  title : String
  version : String
  description : String
  sections : List String
  resources : List String
  links : List IGLink
deriving DecidableEq

/-- The link keywords of source line 397. -/
def linkKeywords : List String := ["guide", "resource", "profile", "example", "download"]

/-- The cleaned, length-filtered section candidates, in `findall` order
across both section patterns (source lines 356-368). -/
def sectionCandidates (s : List Char) : List String :=
  (findAllRx rxHeading s ++ findAllRx rxDivHeader s).filterMap fun m =>
    let clean := (pyStrip m).filter fun c => wordChar c || wsChar c || c == '-'
    if 3 < clean.length && clean.length < 100 then some (String.mk clean) else none

/-- The `Type: id` resource candidates, in `findall` order across both
FHIR patterns, keeping only matches with a nonempty id (source lines
372-385). -/
def resourceCandidates (s : List Char) : List String :=
  (findAllRx rxFhirSlash s ++ findAllRx rxFhirText s).filterMap fun m =>
    if m.2.isEmpty then none
    else some (String.mk (m.1 ++ ':' :: ' ' :: m.2))

/-- `SMARTGuidelinesClient.parse_implementation_guide_html` (source lines
312-402).  Python's `sorted(list(set(xs)))` is modelled as
`(xs.dedup).insertionSort`, which yields the same list: both are the
unique `≤`-sorted duplicate-free list with the membership of `xs`. -/
def parse_implementation_guide_html (html_content source_url : String) : IGInfo :=
  let s := html_content.toList
  let title :=
    match searchRx rxTitle s with
    | some m => String.mk (pyStrip m)
    | none => "Unknown Title"
  let description :=
    match searchRx rxMetaDesc s with
    | some m => String.mk (pyStrip m)
    | none => ""
  let version :=
    match firstPatternMatch version_patterns s with
    | some v => String.mk v
    | none => "Unknown Version"
  let sections := (((sectionCandidates s).dedup).insertionSort (· ≤ ·)).take 10
  let resources := (((resourceCandidates s).dedup).insertionSort (· ≤ ·)).take 15
  let links :=
    ((findAllRx rxAnchor s).filterMap fun m =>
      let cleanText := collapseWs (pyStrip m.2)
      if 3 < cleanText.length && cleanText.length < 50 &&
          linkKeywords.any (fun kw => containsSub kw.toList (lowerList cleanText)) then
        some { url := String.mk m.1, text := String.mk cleanText : IGLink }
      else none).take 10
  { source_url := source_url, title := title, version := version,
    description := description, sections := sections, resources := resources,
    links := links }

/-- A `re.findall` result item: a bare string when the pattern has one
capture group, a pair when it has two.  The source's
`isinstance(match, tuple) and len(match) >= 2` check keeps only the
pairs. -/
inductive ReMatch where
  | one (a : List Char)
  | two (a b : List Char)

/-- The extension alternation `(?:zip|tgz|tar\.gz|json|xml|xlsx)` of
download pattern 1, under `re.IGNORECASE`. -/
def rxDlExt : RxP (List Char) :=
  rxOr (rxLitICCap "zip".toList)
    (rxOr (rxLitICCap "tgz".toList)
      (rxOr (rxLitICCap "tar.gz".toList)
        (rxOr (rxLitICCap "json".toList)
          (rxOr (rxLitICCap "xml".toList) (rxLitICCap "xlsx".toList)))))

/-- Download pattern 1 (source line 449): a full anchor whose href ends in
a known file extension; two capture groups. -/
def rxDlDirect : RxP ReMatch :=
  rxBind (rxLitIC "<a".toList) fun _ =>
  rxBind (rxStar fun c => !(c == '>')) fun _ =>
  rxBind (rxLitIC "href=".toList) fun _ =>
  rxBind (rxCh quoteChar) fun _ =>
  rxBind (rxStar fun c => !(quoteChar c)) fun pre =>
  rxBind (rxCh (· == '.')) fun _ =>
  rxBind rxDlExt fun ext =>
  rxBind (rxCh quoteChar) fun _ =>
  rxBind (rxStar fun c => !(c == '>')) fun _ =>
  rxBind (rxCh (· == '>')) fun _ =>
  rxBind (rxPlus fun c => !(c == '<')) fun desc =>
  rxBind (rxLitIC "</a>".toList) fun _ =>
  rxPure (.two (pre ++ '.' :: ext) desc)

/-- The path-keyword alternation `(?:package|full|validation|definitions)`
of download pattern 2, under `re.IGNORECASE`. -/
def rxDlKeyword : RxP (List Char) :=
  rxOr (rxLitICCap "package".toList)
    (rxOr (rxLitICCap "full".toList)
      (rxOr (rxLitICCap "validation".toList) (rxLitICCap "definitions".toList)))

/-- Download pattern 2 (source line 450): a full anchor whose href
contains a packaging keyword; two capture groups. -/
def rxDlPath : RxP ReMatch :=
  rxBind (rxLitIC "<a".toList) fun _ =>
  rxBind (rxStar fun c => !(c == '>')) fun _ =>
  rxBind (rxLitIC "href=".toList) fun _ =>
  rxBind (rxCh quoteChar) fun _ =>
  rxBind (rxStar fun c => !(quoteChar c)) fun a =>
  rxBind rxDlKeyword fun k =>
  rxBind (rxStar fun c => !(quoteChar c)) fun b =>
  rxBind (rxCh quoteChar) fun _ =>
  rxBind (rxStar fun c => !(c == '>')) fun _ =>
  rxBind (rxCh (· == '>')) fun _ =>
  rxBind (rxPlus fun c => !(c == '<')) fun desc =>
  rxBind (rxLitIC "</a>".toList) fun _ =>
  rxPure (.two (a ++ k ++ b) desc)

/-- An optional trailing `s`/`S`, for `downloads?` and friends. -/
def rxOptS : RxP (List Char) :=
  rxBind (rxOpt (rxCh fun c => c == 's' || c == 'S')) fun o =>
  rxPure (match o with | some c => [c] | none => [])

/-- The `(?:downloads?|files?|exports?)` alternation of download pattern
3, under `re.IGNORECASE`. -/
def rxDlHrefKeyword : RxP (List Char) :=
  rxOr (rxBind (rxLitICCap "download".toList) fun a =>
      rxBind rxOptS fun o => rxPure (a ++ o))
    (rxOr (rxBind (rxLitICCap "file".toList) fun a =>
        rxBind rxOptS fun o => rxPure (a ++ o))
      (rxBind (rxLitICCap "export".toList) fun a =>
        rxBind rxOptS fun o => rxPure (a ++ o)))

/-- Download pattern 3 (source line 451): any `href="..."` containing a
download keyword; a single capture group, so its `findall` items are bare
strings. -/
def rxDlHref : RxP ReMatch :=
  rxBind (rxLitIC "href=".toList) fun _ =>
  rxBind (rxCh quoteChar) fun _ =>
  rxBind (rxStar fun c => !(quoteChar c)) fun a =>
  rxBind rxDlHrefKeyword fun k =>
  rxBind (rxStar fun c => !(quoteChar c)) fun b =>
  rxBind (rxCh quoteChar) fun _ =>
  rxPure (.one (a ++ k ++ b))

/-- The ordered download-pattern list (source lines 448-452). -/
def download_patterns : List (RxP ReMatch) := [rxDlDirect, rxDlPath, rxDlHref]

/-- One extracted download-file entry. -/
structure DownloadFile where
  url : String
  description : String
  format : String
deriving DecidableEq

/-- The record built by `parse_downloads_html`. -/
structure DownloadsInfo where
  source_url : String
  files : List DownloadFile
  formats : List String
  packages : List String
deriving DecidableEq

/-- Python `url.split('.')[-1].lower() if '.' in url else 'unknown'`. -/
def fileExt (u : List Char) : List Char :=
  if u.contains '.' then lowerList ((u.reverse.takeWhile fun c => !(c == '.')).reverse)
  else "unknown".toList

/-- The per-match body of the files loop (source lines 456-468): only
tuple matches of length at least 2 survive the isinstance check, and the
entry is kept only when the cleaned description is longer than 3. -/
def mkDownloadFile (m : ReMatch) : Option DownloadFile :=
  match m with
  | .one _ => none
  | .two u d =>
    let cleanDesc := collapseWs (pyStrip d)
    if 3 < cleanDesc.length then
      some { url := String.mk u, description := String.mk cleanDesc,
             format := String.mk (fileExt u) }
    else none

/-- Package phrase 1, `(FHIR\s+(?:package|bundle|specification))`, under
`re.IGNORECASE` (source line 472). -/
def rxPkg1 : RxP (List Char) :=
  rxBind (rxLitICCap "FHIR".toList) fun a =>
  rxBind (rxPlus wsChar) fun w =>
  rxBind (rxOr (rxLitICCap "package".toList)
    (rxOr (rxLitICCap "bundle".toList) (rxLitICCap "specification".toList))) fun b =>
  rxPure (a ++ w ++ b)

/-- Package phrase 2, `(Implementation\s+Guide\s+(?:package|bundle))`
(source line 473). -/
def rxPkg2 : RxP (List Char) :=
  rxBind (rxLitICCap "Implementation".toList) fun a =>
  rxBind (rxPlus wsChar) fun w1 =>
  rxBind (rxLitICCap "Guide".toList) fun b =>
  rxBind (rxPlus wsChar) fun w2 =>
  rxBind (rxOr (rxLitICCap "package".toList) (rxLitICCap "bundle".toList)) fun d =>
  rxPure (a ++ w1 ++ b ++ w2 ++ d)

/-- Package phrase 3, `(NPM\s+package)` (source line 474). -/
def rxPkg3 : RxP (List Char) :=
  rxBind (rxLitICCap "NPM".toList) fun a =>
  rxBind (rxPlus wsChar) fun w =>
  rxBind (rxLitICCap "package".toList) fun b =>
  rxPure (a ++ w ++ b)

/-- Package phrase 4, `(Validation\s+pack)` (source line 475). -/
def rxPkg4 : RxP (List Char) :=
  rxBind (rxLitICCap "Validation".toList) fun a =>
  rxBind (rxPlus wsChar) fun w =>
  rxBind (rxLitICCap "pack".toList) fun b =>
  rxPure (a ++ w ++ b)

/-- Package phrase 5, `(Full\s+specification)` (source line 476). -/
def rxPkg5 : RxP (List Char) :=
  rxBind (rxLitICCap "Full".toList) fun a =>
  rxBind (rxPlus wsChar) fun w =>
  rxBind (rxLitICCap "specification".toList) fun b =>
  rxPure (a ++ w ++ b)

/-- The ordered package-pattern list (source lines 471-477). -/
def package_patterns : List (RxP (List Char)) := [rxPkg1, rxPkg2, rxPkg3, rxPkg4, rxPkg5]

/-- `SMARTGuidelinesClient.parse_downloads_html` (source lines 429-484).
The formats set is modelled as a first-occurrence-deduplicated list;
Python materialises it from a set in unspecified order, and no claim
depends on that order. -/
def parse_downloads_html (html_content source_url : String) : DownloadsInfo :=
  let s := html_content.toList
  let files := (download_patterns.flatMap fun p => findAllRx p s).filterMap mkDownloadFile
  let packages :=
    package_patterns.flatMap fun p => (findAllRx p s).filter fun m => !m.isEmpty
  { source_url := source_url, files := files,
    formats := (files.map (fun f => f.format)).dedup,
    packages := packages.map String.mk }

/-- A downloads page with one anchor whose href contains "downloads" but
no known file extension and no packaging keyword: only the third download
pattern matches it. -/
def c4html : String := "<a href=\"/downloads/a\">Get files now</a>"

/-- First URL of `url_patterns "anc"`, spelled out. -/
def c1url1 : String :=
  "http://build.fhir.org/ig/WorldHealthOrganization/smart-anc/ImplementationGuide-smart-anc.json"

/-- A transport where the first candidate answers 200 with a body that is
not valid JSON, and every other candidate answers 200 with a valid JSON
body. -/
def c1transport : Transport := fun u =>
  if u = c1url1 then .resp 200 .invalid else .resp 200 (.ok (.str "later"))

/-- The JSON document of claim C2, as a Python dict. -/
def c2doc : PyDict :=
  [("title", .str "ANC"),
   ("dependsOn", .arr [.obj [("uri", .str "x")]]),
   ("contained", .arr [.obj [("resourceType", .str "ValueSet"), ("id", .str "v1")]])]

/-- Modelled from the amended reading of the spec: the first candidate
whose response has status 200 and a JSON body that parses, in candidate
order. -/
def firstParsedSuccess (t : Transport) : List String → Option Json
  | [] => none
  | url :: rest =>
    match t url with
    | .resp s (.ok j) => if s = 200 then some j else firstParsedSuccess t rest
    | _ => firstParsedSuccess t rest

theorem fetchLoop_eq_firstParsedSuccess (t : Transport) :
    ∀ us : List String, fetchLoop t us = .ok (firstParsedSuccess t us) := by
  intro us
  induction us with
  | nil => rfl
  | cons url rest ih =>
    cases h : t url with
    | raise => simp [fetchLoop, firstParsedSuccess, h, PyExn.isRequestException, ih]
    | resp status body =>
      by_cases hs : status = 200
      · subst hs
        cases body with
        | ok j => simp [fetchLoop, firstParsedSuccess, h]
        | invalid => simp [fetchLoop, firstParsedSuccess, h, PyExn.isRequestException, ih]
      · cases body with
        | ok j => simp [fetchLoop, firstParsedSuccess, h, hs, ih]
        | invalid => simp [fetchLoop, firstParsedSuccess, h, hs, ih]

theorem mem_of_head?_eq {α : Type} {l : List α} {x : α} (h : l.head? = some x) :
    x ∈ l := by
  cases l with
  | nil => simp at h
  | cons y ys =>
    simp only [List.head?_cons, Option.some.injEq] at h
    subst h
    exact List.mem_cons_self y ys

theorem rxBind_mem {α β : Type} {p : RxP α} {f : α → RxP β} {s : List Char}
    {x : β × List Char} : x ∈ rxBind p f s ↔ ∃ ar, ar ∈ p s ∧ x ∈ f ar.1 ar.2 := by
  simp [rxBind]

theorem rxOr_mem {α : Type} {p q : RxP α} {s : List Char} {x : α × List Char} :
    x ∈ rxOr p q s ↔ x ∈ p s ∨ x ∈ q s := by
  simp [rxOr]

theorem rxPure_mem {α : Type} {a : α} {s : List Char} {x : α × List Char} :
    x ∈ rxPure a s ↔ x = (a, s) := by
  simp [rxPure]

theorem rxCh_mem {pred : Char → Bool} {s : List Char} {x : Char × List Char}
    (h : x ∈ rxCh pred s) : pred x.1 = true := by
  cases s with
  | nil => simp [rxCh] at h
  | cons c rest =>
    by_cases hc : pred c
    · simp only [rxCh, if_pos hc, List.mem_singleton] at h
      rw [h]
      exact hc
    · simp [rxCh, hc] at h

theorem rxLitCap_mem {cs s : List Char} {x : List Char × List Char}
    (h : x ∈ rxLitCap cs s) : x.1 = cs := by
  unfold rxLitCap at h
  split at h
  · simp only [List.mem_singleton] at h
    rw [h]
  · simp at h

/-- Every item `re.findall` produces is the first component of some result
the pattern yields on some suffix, so a property of all pattern results
holds for all `findall` items. -/
theorem findAllRxGo_forall {α : Type} (p : RxP α) (P : α → Prop)
    (hp : ∀ (s : List Char) (ar : α × List Char), ar ∈ p s → P ar.1) :
    ∀ (fuel : Nat) (s : List Char) (a : α), a ∈ findAllRxGo p fuel s → P a := by
  intro fuel
  induction fuel with
  | zero => intro s a ha; simp [findAllRxGo] at ha
  | succ fuel ih =>
    intro s a ha
    cases s with
    | nil =>
      simp only [findAllRxGo] at ha
      cases hh : (p []).head? with
      | some ar =>
        simp only [hh, List.mem_singleton] at ha
        exact ha ▸ hp [] ar (mem_of_head?_eq hh)
      | none => simp [hh] at ha
    | cons c rest =>
      simp only [findAllRxGo] at ha
      cases hh : (p (c :: rest)).head? with
      | some ar =>
        simp only [hh] at ha
        by_cases hlt : ar.2.length < (c :: rest).length
        · rw [if_pos hlt] at ha
          rcases List.mem_cons.mp ha with ha | ha
          · exact ha ▸ hp _ ar (mem_of_head?_eq hh)
          · exact ih ar.2 a ha
        · rw [if_neg hlt] at ha
          rcases List.mem_cons.mp ha with ha | ha
          · exact ha ▸ hp _ ar (mem_of_head?_eq hh)
          · exact ih rest a ha
      | none =>
        simp only [hh] at ha
        exact ih rest a ha

theorem findAllRx_forall {α : Type} (p : RxP α) (P : α → Prop)
    (hp : ∀ (s : List Char) (ar : α × List Char), ar ∈ p s → P ar.1) :
    ∀ (s : List Char) (a : α), a ∈ findAllRx p s → P a :=
  fun s a ha => findAllRxGo_forall p P hp (s.length + 1) s a ha

theorem rxFhirAlt_mem {s : List Char} {ar : List Char × List Char}
    (h : ar ∈ rxFhirAlt s) : String.mk ar.1 ∈ fhirTypeNames := by
  simp only [rxFhirAlt, rxOr_mem] at h
  rcases h with h | h | h | h | h <;> rw [rxLitCap_mem h] <;> decide

theorem rxFhirSlash_types {s : List Char} {x : (List Char × List Char) × List Char}
    (h : x ∈ rxFhirSlash s) : String.mk x.1.1 ∈ fhirTypeNames := by
  simp only [rxFhirSlash, rxBind_mem, rxPure_mem] at h
  obtain ⟨a1, h1, a2, h2, a3, h3, hx⟩ := h
  rw [hx]
  show String.mk a1.1 ∈ fhirTypeNames
  exact rxFhirAlt_mem h1

theorem rxFhirText_head {s : List Char} {x : (List Char × List Char) × List Char}
    (h : x ∈ rxFhirText s) :
    ∃ c cs, x.1.1 = c :: cs ∧ 'A' ≤ c ∧ c ≤ 'Z' := by
  simp only [rxFhirText, rxBind_mem, rxPure_mem] at h
  obtain ⟨a1, h1, a2, h2, a3, h3, a4, h4, a5, h5, a6, h6, a7, h7, a8, h8, hx⟩ := h
  have hc := rxCh_mem h3
  simp only [Bool.and_eq_true, decide_eq_true_eq] at hc
  exact ⟨a3.1, a4.1, by rw [hx], hc.1, hc.2⟩

/-- Every `resources` candidate has the shape `Type: id` where `Type` is
either exactly one of the five capitalised FHIR names (slash pattern) or a
name starting with an uppercase Latin letter (textual `FHIR` pattern). -/
theorem resourceCandidates_shape (s : List Char) (r : String)
    (hr : r ∈ resourceCandidates s) :
    ∃ t i, r = String.mk (t ++ ':' :: ' ' :: i) ∧
      (String.mk t ∈ fhirTypeNames ∨ ∃ c cs, t = c :: cs ∧ 'A' ≤ c ∧ c ≤ 'Z') := by
  unfold resourceCandidates at hr
  rw [List.mem_filterMap] at hr
  obtain ⟨m, hm, hmr⟩ := hr
  by_cases he : m.2.isEmpty
  · rw [if_pos he] at hmr
    exact Option.noConfusion hmr
  · rw [if_neg he] at hmr
    refine ⟨m.1, m.2, (Option.some.inj hmr).symm, ?_⟩
    rcases List.mem_append.mp hm with h1 | h2
    · exact Or.inl (findAllRx_forall rxFhirSlash (fun m => String.mk m.1 ∈ fhirTypeNames)
        (fun s ar har => rxFhirSlash_types har) s m h1)
    · exact Or.inr (findAllRx_forall rxFhirText
        (fun m => ∃ c cs, m.1 = c :: cs ∧ 'A' ≤ c ∧ c ≤ 'Z')
        (fun s ar har => rxFhirText_head har) s m h2)

theorem rxDlHref_one {s : List Char} {x : ReMatch × List Char}
    (h : x ∈ rxDlHref s) : ∃ a, x.1 = ReMatch.one a := by
  simp only [rxDlHref, rxBind_mem, rxPure_mem] at h
  obtain ⟨a1, h1, a2, h2, a3, h3, a4, h4, a5, h5, a6, h6, hx⟩ := h
  rw [hx]
  exact ⟨_, rfl⟩

/-- The third download pattern contributes no file entries: all its
`findall` items are bare strings and fail the tuple check. -/
theorem rxDlHref_filterMap_nil (s : List Char) :
    (findAllRx rxDlHref s).filterMap mkDownloadFile = [] := by
  rw [List.filterMap_eq_nil_iff]
  intro m hm
  obtain ⟨a, ha⟩ := findAllRx_forall rxDlHref (fun m => ∃ a, m = ReMatch.one a)
    (fun s ar har => by
      obtain ⟨a, ha⟩ := rxDlHref_one har
      exact ⟨a, ha⟩) s m hm
  rw [ha]
  rfl

theorem sortedDedupTake_sorted (l : List String) (k : Nat) :
    (((l.dedup).insertionSort (· ≤ ·)).take k).Sorted (· ≤ ·) :=
  List.Pairwise.sublist (List.take_sublist k _) (List.sorted_insertionSort _ _)

theorem sortedDedupTake_nodup (l : List String) (k : Nat) :
    (((l.dedup).insertionSort (· ≤ ·)).take k).Nodup :=
  List.Nodup.sublist (List.take_sublist k _)
    ((List.perm_insertionSort _ _).nodup_iff.mpr (List.nodup_dedup l))

theorem sortedDedupTake_length (l : List String) (k : Nat) :
    (((l.dedup).insertionSort (· ≤ ·)).take k).length ≤ k := by
  rw [List.length_take]
  exact min_le_left _ _

theorem parse_IG_version (html url : String) :
    (parse_implementation_guide_html html url).version =
      (match firstPatternMatch version_patterns html.toList with
       | some v => String.mk v
       | none => "Unknown Version") :=
  rfl

theorem parse_IG_sections (html url : String) :
    (parse_implementation_guide_html html url).sections =
      (((sectionCandidates html.toList).dedup).insertionSort (· ≤ ·)).take 10 :=
  rfl

theorem parse_IG_resources (html url : String) :
    (parse_implementation_guide_html html url).resources =
      (((resourceCandidates html.toList).dedup).insertionSort (· ≤ ·)).take 15 :=
  rfl

/-- C1 counterexample: under `c1transport` the first candidate URL answers
with status code 200, yet `fetch_smart_guideline` moves on and returns a
later candidate's parsed body — so it does not return the parsed body of
the first status-200 response, and it does attempt later candidates after
one. -/
theorem c1_counterexample :
    (url_patterns "anc").head? = some c1url1 ∧
    c1transport c1url1 = .resp 200 .invalid ∧
    fetch_smart_guideline "anc" c1transport = .ok (some (.str "later")) :=
  ⟨rfl, rfl, rfl⟩

/-- C1 (amended): for every guideline identifier and transport behaviour,
`fetch_smart_guideline` tries the five candidate URLs in their declared
order and returns the parsed body of the first response whose status code
equals 200 and whose body parses as JSON; a non-200 response, a transport
failure, or an invalid JSON body on a 200 response moves on to the next
candidate; if all five candidates fail it returns `None` rather than
raising. -/
theorem c1_amended_first_parsed_success (g : String) (t : Transport) :
    fetch_smart_guideline g t = .ok (firstParsedSuccess t (url_patterns g)) :=
  fetchLoop_eq_firstParsedSuccess t (url_patterns g)

/-- C5: `fetch_smart_guideline` never propagates a failure as an
exception: for every transport behaviour (including 200 responses whose
bodies are not valid JSON) it returns normally, with a parsed document or
the no-result value. -/
theorem c5_fetch_never_raises (g : String) (t : Transport) :
    ∃ r : Option Json, fetch_smart_guideline g t = .ok r :=
  ⟨firstParsedSuccess t (url_patterns g), fetchLoop_eq_firstParsedSuccess t (url_patterns g)⟩

/-- C2: on the document with title "ANC", one dependency and one contained
ValueSet, `process_dak_content` fills every absent key with its documented
default and mirrors source order; on `None` and on the empty dict it
returns no summary. -/
theorem c2_process_dak_concrete :
    process_dak_content (some c2doc) = .ok (some
      { title := .str "ANC", version := .str "Unknown Version", description := .str "",
        status := .str "unknown", date := .str "", publisher := .str "",
        resources := [{ type := .str "ValueSet", id := .str "v1", title := .str "" }],
        dependencies := [{ uri := .str "x", version := .str "" }] }) ∧
    process_dak_content none = .ok none ∧
    process_dak_content (some []) = .ok none :=
  ⟨rfl, rfl, rfl⟩

/-- C6 counterexample: on a transport failure `get_guideline_summary`
returns the fallback record whose description is the string
"Repository information not available", which is not the string
"not available" claimed. -/
theorem c6_counterexample :
    get_guideline_summary "anc" .raise =
      .ok [("name", .str "anc"),
           ("description", .str "Repository information not available")] ∧
    "Repository information not available" ≠ "not available" :=
  ⟨rfl, by decide⟩

/-- C6 (amended): for every identifier, `get_guideline_summary` returns
the fallback record with name equal to the identifier and description
"Repository information not available" on any failure of the lookup —
non-200 status, transport error, or invalid JSON on a 200 response. -/
theorem c6_amended_fallback_on_failure (g : String) :
    (∀ (s : Nat) (b : JsonBody), s ≠ 200 →
      get_guideline_summary g (.resp s b) =
        .ok [("name", .str g),
             ("description", .str "Repository information not available")]) ∧
    get_guideline_summary g .raise =
      .ok [("name", .str g),
           ("description", .str "Repository information not available")] ∧
    get_guideline_summary g (.resp 200 .invalid) =
      .ok [("name", .str g),
           ("description", .str "Repository information not available")] := by
  refine ⟨?_, rfl, rfl⟩
  intro s b h
  cases b <;> simp [get_guideline_summary, fallbackSummary, h]

/-- Witness for C6's amended theorem at a concrete non-200 failure. -/
theorem c6_amended_fallback_on_failure_witness :
    get_guideline_summary "anc" (.resp 404 .invalid) =
      .ok [("name", .str "anc"),
           ("description", .str "Repository information not available")] :=
  (c6_amended_fallback_on_failure "anc").1 404 .invalid (by decide)

theorem probeEndpoint_url (u : String) (t : HeadTransport) :
    (probeEndpoint u t).url = u := by
  unfold probeEndpoint
  cases t u <;> rfl

theorem probeEndpoint_raise {u : String} {t : HeadTransport} (hr : t u = .raise) :
    (probeEndpoint u t).status = .error ∧ (probeEndpoint u t).accessible = false := by
  unfold probeEndpoint
  rw [hr]
  exact ⟨rfl, rfl⟩

theorem probeEndpoint_resp {u : String} {t : HeadTransport} {s : Nat}
    (hs : t u = .resp s) :
    (probeEndpoint u t).status = .code s ∧
      ((probeEndpoint u t).accessible = true ↔ s = 200) := by
  unfold probeEndpoint
  rw [hs]
  simp

/-- C8: `check_guideline_availability` records all three fixed endpoints
in order; each endpoint's record carries its URL, records status `error`
and `accessible = false` exactly on a transport failure, records the
status code with `accessible` true exactly for code 200 otherwise, and
depends only on the transport's behaviour at that endpoint's own URL. -/
theorem c8_availability_per_endpoint (g : String) (t : HeadTransport)
    (nm u : String) (h : (nm, u) ∈ availabilityEndpoints g) :
    (check_guideline_availability g t).map Prod.fst =
      ["build_site", "github_pages", "github_repo"] ∧
    (check_guideline_availability g t).lookup nm = some (probeEndpoint u t) ∧
    (probeEndpoint u t).url = u ∧
    (t u = .raise →
      (probeEndpoint u t).status = .error ∧ (probeEndpoint u t).accessible = false) ∧
    (∀ s : Nat, t u = .resp s →
      (probeEndpoint u t).status = .code s ∧
      ((probeEndpoint u t).accessible = true ↔ s = 200)) ∧
    (∀ t' : HeadTransport, t u = t' u →
      (check_guideline_availability g t').lookup nm = some (probeEndpoint u t)) := by
  have hprobe : ∀ (u' : String) (t' : HeadTransport), t u' = t' u' →
      probeEndpoint u' t' = probeEndpoint u' t := by
    intro u' t' ht
    unfold probeEndpoint
    rw [← ht]
  simp only [availabilityEndpoints, List.mem_cons, List.not_mem_nil, or_false,
    Prod.mk.injEq] at h
  rcases h with ⟨h1, h2⟩ | ⟨h1, h2⟩ | ⟨h1, h2⟩ <;> subst h1 <;> subst h2
  · exact ⟨rfl, rfl, probeEndpoint_url _ t,
      fun hr => probeEndpoint_raise hr,
      fun s hs => probeEndpoint_resp hs,
      fun t' ht => by
        have h0 : (check_guideline_availability g t').lookup "build_site" =
            some (probeEndpoint
              ("http://build.fhir.org/ig/WorldHealthOrganization/smart-" ++ g ++ "/") t') := rfl
        rw [h0, hprobe _ t' ht]⟩
  · exact ⟨rfl, rfl, probeEndpoint_url _ t,
      fun hr => probeEndpoint_raise hr,
      fun s hs => probeEndpoint_resp hs,
      fun t' ht => by
        have h0 : (check_guideline_availability g t').lookup "github_pages" =
            some (probeEndpoint
              ("https://worldhealthorganization.github.io/smart-" ++ g ++ "/") t') := rfl
        rw [h0, hprobe _ t' ht]⟩
  · exact ⟨rfl, rfl, probeEndpoint_url _ t,
      fun hr => probeEndpoint_raise hr,
      fun s hs => probeEndpoint_resp hs,
      fun t' ht => by
        have h0 : (check_guideline_availability g t').lookup "github_repo" =
            some (probeEndpoint
              ("https://github.com/WorldHealthOrganization/smart-" ++ g) t') := rfl
        rw [h0, hprobe _ t' ht]⟩

/-- Witness for C8 at a concrete identifier, endpoint and transport. -/
theorem c8_availability_per_endpoint_witness :
    (check_guideline_availability "anc" (fun _ => HeadOutcome.resp 200)).lookup
        "build_site" =
      some (probeEndpoint "http://build.fhir.org/ig/WorldHealthOrganization/smart-anc/"
        (fun _ => HeadOutcome.resp 200)) :=
  (c8_availability_per_endpoint "anc" (fun _ => HeadOutcome.resp 200) "build_site"
    "http://build.fhir.org/ig/WorldHealthOrganization/smart-anc/" (by decide)).2.1

/-- C9 counterexample: a status-200 token response whose JSON object lacks
the access_token key makes `authenticate_oauth2` return no token, so a
200 response does not guarantee an access token, and `None` is not
returned only on non-200 responses and transport errors. -/
theorem c9_counterexample :
    authenticate_oauth2 (.resp 200 (.ok (.obj []))) = .ok none :=
  rfl

/-- C9 (amended): the token exchange returns the value of the
access_token key of the parsed 200 response body (no token when the key is
absent or the body is not valid JSON), and returns no token on a non-200
response or a transport error. -/
theorem c9_amended_token_exchange :
    authenticate_oauth2 .raise = .ok none ∧
    (∀ (s : Nat) (b : JsonBody), s ≠ 200 → authenticate_oauth2 (.resp s b) = .ok none) ∧
    authenticate_oauth2 (.resp 200 .invalid) = .ok none ∧
    (∀ kvs : PyDict, authenticate_oauth2 (.resp 200 (.ok (.obj kvs))) =
      .ok (kvs.lookup "access_token")) := by
  refine ⟨rfl, ?_, rfl, fun kvs => rfl⟩
  intro s b h
  cases b <;> simp [authenticate_oauth2, h]

/-- Witness for C9's amended theorem at a concrete non-200 response. -/
theorem c9_amended_token_exchange_witness :
    authenticate_oauth2 (.resp 404 .invalid) = .ok none :=
  c9_amended_token_exchange.2.1 404 .invalid (by decide)

/-- C3: for every HTML input, the extracted version is decided by trying
the three version patterns in their declared priority order — the first
pattern with a match anywhere in the document wins even when a later
pattern also matches; in particular, a document matching both the
labelled "Version:" form and the bare "vX.Y" form yields the labelled
form's number. -/
theorem c3_version_pattern_priority :
    (∀ html url : String,
      (∀ v, searchRx rxVersion1 html.toList = some v →
        (parse_implementation_guide_html html url).version = String.mk v) ∧
      (searchRx rxVersion1 html.toList = none →
        ∀ v, searchRx rxVersion2 html.toList = some v →
          (parse_implementation_guide_html html url).version = String.mk v) ∧
      (searchRx rxVersion1 html.toList = none →
        searchRx rxVersion2 html.toList = none →
          ∀ v, searchRx rxVersion3 html.toList = some v →
            (parse_implementation_guide_html html url).version = String.mk v)) ∧
    (parse_implementation_guide_html "v9.9 Version: 1.2" "u").version = "1.2" ∧
    searchRx rxVersion3 ("v9.9 Version: 1.2".toList) = some ("9.9".toList) := by
  refine ⟨?_, rfl, rfl⟩
  intro html url
  refine ⟨?_, ?_, ?_⟩
  · intro v hv
    simp only [parse_IG_version, version_patterns, firstPatternMatch, hv]
  · intro h1 v hv
    simp only [parse_IG_version, version_patterns, firstPatternMatch, h1, hv]
  · intro h1 h2 v hv
    simp only [parse_IG_version, version_patterns, firstPatternMatch, h1, h2, hv]

/-- Witness for C3 at a concrete document matched by the first version
pattern. -/
theorem c3_version_pattern_priority_witness :
    (parse_implementation_guide_html "Version: 4.5" "u").version =
      String.mk ("4.5".toList) :=
  (c3_version_pattern_priority.1 "Version: 4.5" "u").1 ("4.5".toList) rfl

/-- C4 counterexample: `c4html` holds one anchor matched only by the
third download pattern, with a whitespace-collapsed description longer
than 3, yet `parse_downloads_html` produces no file entry for it. -/
theorem c4_counterexample :
    (findAllRx rxDlHref c4html.toList).length = 1 ∧
    3 < (collapseWs (pyStrip ("Get files now".toList))).length ∧
    (parse_downloads_html c4html "u").files = [] :=
  ⟨rfl, by decide, rfl⟩

/-- C4 (amended): `parse_downloads_html` produces a file entry (url,
whitespace-collapsed description, format) exactly for the anchors matched
by the first two download patterns whose description is longer than 3;
anchors matched only by the third pattern contribute nothing, because
that pattern has a single capture group, so its `findall` items are bare
strings and are dropped by the tuple check. -/
theorem c4_files_from_pair_patterns (html url : String) :
    (parse_downloads_html html url).files =
      (findAllRx rxDlDirect html.toList ++ findAllRx rxDlPath html.toList).filterMap
        mkDownloadFile := by
  have h0 : (parse_downloads_html html url).files =
      ((findAllRx rxDlDirect html.toList ++
        (findAllRx rxDlPath html.toList ++
          (findAllRx rxDlHref html.toList ++ []))).filterMap mkDownloadFile) := rfl
  rw [h0]
  simp only [List.append_nil, List.filterMap_append, rxDlHref_filterMap_nil]

/-- C7: for every HTML input, the extracted sections and resources are
lexicographically sorted, duplicate-free, and capped at 10 and 15
entries respectively; extraction is a pure function, so re-running it on
identical input yields exactly the same record. -/
theorem c7_sections_resources_canonical (html url : String) :
    ((parse_implementation_guide_html html url).sections.Sorted (· ≤ ·) ∧
      (parse_implementation_guide_html html url).sections.Nodup ∧
      (parse_implementation_guide_html html url).sections.length ≤ 10) ∧
    ((parse_implementation_guide_html html url).resources.Sorted (· ≤ ·) ∧
      (parse_implementation_guide_html html url).resources.Nodup ∧
      (parse_implementation_guide_html html url).resources.length ≤ 15) ∧
    parse_implementation_guide_html html url = parse_implementation_guide_html html url := by
  refine ⟨⟨?_, ?_, ?_⟩, ⟨?_, ?_, ?_⟩, rfl⟩
  · rw [parse_IG_sections]
    exact sortedDedupTake_sorted _ _
  · rw [parse_IG_sections]
    exact sortedDedupTake_nodup _ _
  · rw [parse_IG_sections]
    exact sortedDedupTake_length _ _
  · rw [parse_IG_resources]
    exact sortedDedupTake_sorted _ _
  · rw [parse_IG_resources]
    exact sortedDedupTake_nodup _ _
  · rw [parse_IG_resources]
    exact sortedDedupTake_length _ _

/-- C10: FHIR resource extraction is case-sensitive — every emitted
resource entry is `Type: id` with `Type` either exactly one of the five
capitalised names (slash pattern) or starting with an uppercase letter
(textual pattern), so the lowercase reference `valueset/abc` yields no
entry while `ValueSet/abc` does; meanwhile title, description, version,
section, and link matching in the same function are case-insensitive, as
the uppercase-markup documents show. -/
theorem c10_resource_extraction_case_sensitive :
    (∀ (html url r : String),
      r ∈ (parse_implementation_guide_html html url).resources →
      ∃ t i, r = String.mk (t ++ ':' :: ' ' :: i) ∧
        (String.mk t ∈ fhirTypeNames ∨ ∃ c cs, t = c :: cs ∧ 'A' ≤ c ∧ c ≤ 'Z')) ∧
    (parse_implementation_guide_html "valueset/abc" "u").resources = [] ∧
    (parse_implementation_guide_html "ValueSet/abc" "u").resources = ["ValueSet: abc"] ∧
    (parse_implementation_guide_html "<TITLE>T5</TITLE>" "u").title = "T5" ∧
    (parse_implementation_guide_html "VERSION: 1.2" "u").version = "1.2" ∧
    (parse_implementation_guide_html "<H1>Intro Section</H1>" "u").sections =
      ["Intro Section"] ∧
    (parse_implementation_guide_html "<META NAME=\"description\" CONTENT=\"D5x\">"
      "u").description = "D5x" ∧
    (parse_implementation_guide_html "<A HREF=\"/g\">User Guide</A>" "u").links =
      [{ url := "/g", text := "User Guide" }] := by
  refine ⟨?_, rfl, rfl, rfl, rfl, rfl, rfl, rfl⟩
  intro html url r hr
  rw [parse_IG_resources] at hr
  have hr2 := List.take_subset 15 _ hr
  rw [List.mem_insertionSort] at hr2
  rw [List.mem_dedup] at hr2
  exact resourceCandidates_shape _ _ hr2

/-- Witness for C10's universal part at the entry extracted from
`ValueSet/abc`. -/
theorem c10_resource_extraction_case_sensitive_witness :
    ∃ t i, "ValueSet: abc" = String.mk (t ++ ':' :: ' ' :: i) ∧
      (String.mk t ∈ fhirTypeNames ∨ ∃ c cs, t = c :: cs ∧ 'A' ≤ c ∧ c ≤ 'Z') :=
  c10_resource_extraction_case_sensitive.1 "ValueSet/abc" "u" "ValueSet: abc" (by
    rw [show (parse_implementation_guide_html "ValueSet/abc" "u").resources =
      ["ValueSet: abc"] from rfl]
    exact List.mem_singleton_self _)

end SmartExplore
